import Mathlib

/-!
# Verification of the sentiment-analysis-finance-posts ingestion core

Shallow embedding of the backend ingestion pipeline of the repository
`sentiment-analysis-finance-posts`:

* `src/backend/reddit_rss_client.py` — quota allocation, per-source fetching
  with failure isolation, feed parsing (identity derivation, timestamps),
  and the two-pass content filter;
* `src/backend/migrations.py` — the versioned schema-migration state machine;
* `src/backend/app.py` — the `/api/v1/fetch-posts` endpoint flow, as far as
  it drives the ingest operation.

Python strings are embedded as `String`/`List Char`, Python ints as `Int`
(quota arithmetic uses `Int.fdiv`, Python's floor division), fallible code
returns `Option`/`Except`.  Standard-library collaborators (`re.search` on
the configured patterns, `dateutil.parser.isoparse`, `html.unescape`,
decimal rendering of ints) are modelled by executable Lean functions whose
doc comments state the subset modelled.
-/

namespace FinSent

/-! ## Basic string machinery (kernel-computable replacements for the
Python string operations used by the client) -/

/-- Python `needle in hay` (substring test) on character lists. -/
def containsSub (needle : List Char) : List Char → Bool
  | [] => needle.isEmpty
  | c :: cs => needle.isPrefixOf (c :: cs) || containsSub needle cs

/-- Python `str.lower()` (ASCII case folding, which is all the configured
rules and feed text exercise). -/
def pyLower (s : String) : String := String.mk (s.data.map Char.toLower)

/-- Fueled worker for `splitOnL`; consumes at least one character per step
when the separator is nonempty, so fuel `s.length` always suffices. -/
def splitOnCore (sep : List Char) : Nat → List Char → List Char → List (List Char)
  | _, [], acc => [acc.reverse]
  | 0, s, acc => [acc.reverse ++ s]
  | fuel + 1, c :: cs, acc =>
    if sep.isPrefixOf (c :: cs) then
      acc.reverse :: splitOnCore sep fuel ((c :: cs).drop sep.length) []
    else
      splitOnCore sep fuel cs (c :: acc)

/-- Python `str.split(sep)` for a nonempty literal separator
(`raw_id.split('/')`, and splitting the filter regexes on `".*"`). -/
def splitOnL (s sep : List Char) : List (List Char) :=
  if sep.isEmpty then [s] else splitOnCore sep s.length s []

/-- Python `str.strip()` on the whitespace the feeds produce. -/
def pyStrip (s : String) : String :=
  String.mk (((s.data.dropWhile Char.isWhitespace).reverse.dropWhile Char.isWhitespace).reverse)

/-- Models Python `html.unescape` for the five entities Reddit's Atom feeds
actually markup-escape (`&amp; &lt; &gt; &quot; &#39;`); all other text
passes through unchanged. -/
def htmlUnescape : List Char → List Char
  | [] => []
  | '&' :: 'a' :: 'm' :: 'p' :: ';' :: rest => '&' :: htmlUnescape rest
  | '&' :: 'l' :: 't' :: ';' :: rest => '<' :: htmlUnescape rest
  | '&' :: 'g' :: 't' :: ';' :: rest => '>' :: htmlUnescape rest
  | '&' :: 'q' :: 'u' :: 'o' :: 't' :: ';' :: rest => '"' :: htmlUnescape rest
  | '&' :: '#' :: '3' :: '9' :: ';' :: rest => '\'' :: htmlUnescape rest
  | c :: rest => c :: htmlUnescape rest

/-! ## The regex subset used by the title filter

Every configured `exclude_titles` pattern has the shape
`lit₀.*lit₁.*…litₙ`: literal words separated by `.*`.  `re.search` finds the
pattern anywhere in the subject; `.` does not match a newline (no
`re.DOTALL`), so the gaps between the literals consist of non-newline
characters, while the characters before the first literal and after the
last are unconstrained. -/

/-- After a literal has been consumed: skip a (possibly empty) gap of
non-newline characters, then match the next literal, and so on.  The fuel
argument only forces structural recursion: every step shortens
`pieces.length + s.length`, so `reGapF` is never actually starved when
called with fuel `pieces.length + s.length` (`pieces = []` needs none). -/
def reGapF : Nat → List (List Char) → List Char → Bool
  | _, [], _ => true
  | 0, _ :: _, _ => false
  | fuel + 1, p :: rest, [] => p.isPrefixOf ([] : List Char) && reGapF fuel rest []
  | fuel + 1, p :: rest, c :: cs =>
    (p.isPrefixOf (c :: cs) && reGapF fuel rest ((c :: cs).drop p.length))
    || (decide (c ≠ '\n') && reGapF fuel (p :: rest) cs)

/-- `re.search` over a `lit₀.*…litₙ` pattern: the match may start at any
position of the subject (fueled like `reGapF`). -/
def reSearchF : Nat → List (List Char) → List Char → Bool
  | _, [], _ => true
  | 0, _ :: _, _ => false
  | fuel + 1, p :: rest, [] => p.isPrefixOf ([] : List Char) && reGapF fuel rest []
  | fuel + 1, p :: rest, c :: cs =>
    (p.isPrefixOf (c :: cs) && reGapF fuel rest ((c :: cs).drop p.length))
    || reSearchF fuel (p :: rest) cs

/-- `re.search` over a `lit₀.*…litₙ` pattern, with adequate fuel. -/
def reSearchPieces (pieces : List (List Char)) (s : List Char) : Bool :=
  reSearchF (pieces.length + s.length) pieces s

/-- `re.search(pattern, subject, re.IGNORECASE)` for the `lit.*…*lit`
patterns of `exclude_titles`: the pattern string is split on `".*"` and its
literals are case-folded (the subject is already lower-cased by the
caller, `_should_filter_post`). -/
def reSearch (pattern : String) (subject : String) : Bool :=
  reSearchPieces ((splitOnL pattern.data ['.', '*']).map (fun p => p.map Char.toLower)) subject.data

/-! ## Content filter (`RedditRSSClient.__init__` / `_should_filter_post`) -/

/-- The `filter_patterns` configuration: `exclude_titles` are regexes
matched against the title, `exclude_keywords` are substrings looked up in
the combined title-and-body text. -/
structure FilterPatterns where
  exclude_titles : List String
  exclude_keywords : List String
deriving Repr, DecidableEq

/-- The default `filter_patterns` from `RedditRSSClient.__init__`
(reddit_rss_client.py lines 22–42). -/
def defaultFilterPatterns : FilterPatterns where
  exclude_titles :=
    ["daily.*discussion",
     "general.*discussion",
     "advice.*thread",
     "what.*are.*your.*moves",
     "weekend.*discussion",
     "discussion.*thread",
     "daily.*thread"]
  exclude_keywords :=
    ["which niche",
     "wanted to talk to but",
     "career advice",
     "networking",
     "should i",
     "how do i become",
     "resume",
     "job interview"]

/-- `RedditRSSClient._should_filter_post` (reddit_rss_client.py lines
55–80): lower-case title and text, build `f"{title_lower} {text_lower}"`,
then return `True` on the first `exclude_titles` regex matching the title,
else on the first `exclude_keywords` substring of the combined text, else
`False`. -/
def should_filter_post (fp : FilterPatterns) (title text : String) : Bool :=
  let title_lower := pyLower title
  let text_lower := pyLower text
  let combined := title_lower ++ " " ++ text_lower
  fp.exclude_titles.any (fun pattern => reSearch pattern title_lower)
  || fp.exclude_keywords.any (fun keyword => containsSub (pyLower keyword).data combined.data)

/-- The rule that fired, for the ordered first-match reading of the
filter: the title pass runs before the keyword pass. -/
inductive FilterRule where
  | titleRegex (pattern : String)
  | keyword (k : String)
deriving Repr, DecidableEq

/-- Ordered first-match evaluation of `_should_filter_post`: the first
`exclude_titles` regex matching the title, else the first
`exclude_keywords` substring of the combined text, else `none`. -/
def firstFilterRule (fp : FilterPatterns) (title text : String) : Option FilterRule :=
  let title_lower := pyLower title
  let combined := title_lower ++ " " ++ pyLower text
  match fp.exclude_titles.find? (fun pattern => reSearch pattern title_lower) with
  | some p => some (.titleRegex p)
  | none =>
    (fp.exclude_keywords.find? (fun k => containsSub (pyLower k).data combined.data)).map .keyword

/-! ## Decimal rendering of naturals

Models Python's decimal rendering of a non-negative int, as used by the
f-string `f"post_{len(results)}"`.  Implemented with fuel (the value
itself bounds the digit count) so that the kernel can evaluate it. -/

/-- Little-endian decimal digits of `n` (empty for `0`); fuel `n` always
suffices since `n / 10 < n` for `n ≥ 1`. -/
def digitsCore : Nat → Nat → List Nat
  | 0, _ => []
  | _ + 1, 0 => []
  | fuel + 1, n + 1 => ((n + 1) % 10) :: digitsCore fuel ((n + 1) / 10)

/-- The character of a decimal digit. -/
def digitCharOf (d : Nat) : Char := Char.ofNat (48 + d)

/-- Python decimal rendering of a non-negative int. -/
def natToStr (n : Nat) : String :=
  if n = 0 then "0" else String.mk (((digitsCore n n).reverse).map digitCharOf)

/-- Value of a little-endian digit list — the left inverse of `digitsCore`
used to prove that distinct counters render to distinct placeholders. -/
def unDigits : List Nat → Nat
  | [] => 0
  | d :: ds => d + 10 * unDigits ds

/-! ## Post identity derivation (`RedditRSSClient._parse_feed`, lines 207–223) -/

/-- The loop guard `if part and part not in ['comments', 'r', subreddit]`:
a path segment qualifies when it is nonempty and is not the literal
`"comments"`, the literal `"r"`, or the source's own name. -/
def qualSeg (subreddit : String) (part : List Char) : Bool :=
  !part.isEmpty && !(part == "comments".data) && !(part == "r".data)
    && !(part == subreddit.data)

/-- Lines 210–223 of `_parse_feed`: split the native id/URL on `'/'`, walk
the segments in reverse and keep the first qualifying one; if the raw id is
absent/empty or no segment qualifies, synthesize the positional placeholder
`post_{len(results)}` (one post is appended per entry, so `len(results)`
is the entry's position in the batch). -/
def deriveRedditId (rawId : Option String) (subreddit : String) (resultCount : Nat) : String :=
  let found : Option (List Char) :=
    match rawId with
    | none => none
    | some rid =>
      if rid = "" then none
      else (splitOnL rid.data ['/']).reverse.find? (qualSeg subreddit)
  match found with
  | some p => String.mk p
  | none => "post_" ++ natToStr resultCount

/-- Line 223: the derived reddit id is prefixed with the fixed namespace
tag `reddit_`. -/
def derivePostId (rawId : Option String) (subreddit : String) (resultCount : Nat) : String :=
  "reddit_" ++ deriveRedditId rawId subreddit resultCount

/-! ## Normalized posts and the fetch flow (`RedditRSSClient.fetch_posts`) -/

/-- The dictionary `_parse_feed` appends per entry (the duplicated
compatibility fields `author_id`/`link` mirror `author`/`url` and the empty
`metrics` dict carries no information, so they are not repeated here). -/
structure Post where
  id : String
  reddit_id : String
  url : String
  subreddit : String
  title : String
  text : String
  author : String
  created_at : String
  timezone : String
deriving Repr, DecidableEq

/-- The configuration loaded by `RedditRSSClient.__init__`. -/
structure ClientConfig where
  subreddits : List String
  user_agent : String
  default_query : String
  filter_patterns : FilterPatterns

/-- Line 91 of `fetch_posts`:
`max(1, min(50, max_results // max(len(self.subreddits), 1) + 1))`
(`//` is Python floor division, `Int.fdiv`). -/
def per_sub_limit (max_results : Int) (numSubreddits : Nat) : Int :=
  max 1 (min 50 (Int.fdiv max_results (max (Int.ofNat numSubreddits) 1) + 1))

/-- The inner loop of `fetch_posts` (lines 108–115): drop posts the content
filter rejects, stop appending once `len(collected) >= max_results`. -/
def appendFiltered (fp : FilterPatterns) (max_results : Int) :
    List Post → List Post → List Post
  | [], collected => collected
  | post :: ps, collected =>
    if should_filter_post fp post.title post.text then
      appendFiltered fp max_results ps collected
    else if max_results ≤ (collected.length : Int) then collected
    else appendFiltered fp max_results ps (collected ++ [post])

/-- The outer loop of `fetch_posts` (lines 93–118): one bounded request per
subreddit; a request/parse failure (`fetch` returning `none`, i.e. the
`except` branch at line 116) skips that subreddit only; a global early exit
fires once the cap is reached. -/
def collectSubs (fp : FilterPatterns)
    (fetch : String → String → Int → Option (List Post))
    (query : String) (limit max_results : Int) :
    List String → List Post → List Post
  | [], collected => collected
  | sub :: rest, collected =>
    if max_results ≤ (collected.length : Int) then collected
    else
      match fetch sub query limit with
      | none => collectSubs fp fetch query limit max_results rest collected
      | some posts =>
        collectSubs fp fetch query limit max_results rest
          (appendFiltered fp max_results posts collected)

/-- `RedditRSSClient.fetch_posts` (lines 82–120).  The network/parse stage
is abstracted as `fetch subreddit query limit`, returning `none` when the
request raises (network error or non-success status) and the parsed posts
otherwise. -/
def client_fetch_posts (cfg : ClientConfig)
    (fetch : String → String → Int → Option (List Post))
    (query : Option String) (max_results : Int) : List Post :=
  if max_results ≤ 0 then []
  else
    let search_query := query.getD cfg.default_query
    let limit := per_sub_limit max_results cfg.subreddits.length
    let subs := if cfg.subreddits.isEmpty then ["stocks", "investing"] else cfg.subreddits
    (collectSubs cfg.filter_patterns fetch search_query limit max_results subs []).take
      max_results.toNat

/-! ## Timestamps (`RedditRSSClient._parse_timestamp_with_timezone`)

`dateutil.parser.isoparse` is modelled on the ISO-8601 extended format the
feeds carry: `YYYY-MM-DD[THH[:MM[:SS[.ffffff]]]][Z|±HH[:MM]]`, with
calendar/clock validation; anything else fails (`none`), which in the
Python code raises and takes the fallback branch. -/

/-- An aware-or-naive `datetime`: `offsetMinutes = none` models a naive
value (`tzinfo is None`), `some k` a fixed UTC offset of `k` minutes. -/
structure PyDateTime where
  year : Nat
  month : Nat
  day : Nat
  hour : Nat
  minute : Nat
  second : Nat
  microsecond : Nat
  offsetMinutes : Option Int
deriving Repr, DecidableEq

/-- Numeric value of a decimal digit character. -/
def digitVal (c : Char) : Nat := c.toNat - 48

/-- Read exactly `n` decimal digits, most significant first. -/
def readDigits : Nat → Nat → List Char → Option (Nat × List Char)
  | 0, acc, s => some (acc, s)
  | _ + 1, _, [] => none
  | n + 1, acc, c :: cs =>
    if c.isDigit then readDigits n (acc * 10 + digitVal c) cs else none

/-- Require a literal character. -/
def expectChar (c : Char) : List Char → Option (List Char)
  | [] => none
  | x :: xs => if x = c then some xs else none

/-- Read between 1 and 6 fractional-second digits, scaled to microseconds
(`count` starts at 0, `acc` at 0). -/
def readFrac : Nat → Nat → Nat → List Char → Option (Nat × List Char)
  | _, acc, count, [] =>
    if count = 0 then none else some (acc * 10 ^ (6 - count), [])
  | fuel + 1, acc, count, c :: cs =>
    if c.isDigit ∧ count < 6 then readFrac fuel (acc * 10 + digitVal c) (count + 1) cs
    else if count = 0 then none
    else some (acc * 10 ^ (6 - count), c :: cs)
  | 0, acc, count, s =>
    if count = 0 then none else some (acc * 10 ^ (6 - count), s)

/-- Gregorian leap year. -/
def isLeapYear (y : Nat) : Bool := (y % 4 = 0 && y % 100 ≠ 0) || y % 400 = 0

/-- Days in a month, as `datetime` validates them. -/
def daysInMonth (y m : Nat) : Nat :=
  if m = 2 then (if isLeapYear y then 29 else 28)
  else if m = 4 ∨ m = 6 ∨ m = 9 ∨ m = 11 then 30
  else 31

/-- Parse the optional UTC-offset suffix: end of input (naive), `Z`/`z`,
or `±HH[:MM]`/`±HHMM`, returning the offset in minutes. -/
def parseTzSuffix : List Char → Option (Option Int)
  | [] => some none
  | 'Z' :: rest => if rest.isEmpty then some (some 0) else none
  | 'z' :: rest => if rest.isEmpty then some (some 0) else none
  | c :: rest =>
    if c = '+' ∨ c = '-' then
      match readDigits 2 0 rest with
      | none => none
      | some (hh, rest₁) =>
        let mmPart : Option (Nat × List Char) :=
          match rest₁ with
          | [] => some (0, [])
          | ':' :: rest₂ => readDigits 2 0 rest₂
          | _ => readDigits 2 0 rest₁
        match mmPart with
        | none => none
        | some (mm, rest₃) =>
          if rest₃.isEmpty ∧ hh ≤ 23 ∧ mm ≤ 59 then
            let total : Int := Int.ofNat (hh * 60 + mm)
            some (some (if c = '-' then -total else total))
          else none
    else none

/-- Parse the optional clock part after `T`, plus the offset suffix. -/
def parseClock (s : List Char) : Option (Nat × Nat × Nat × Nat × Option Int) := do
  let (hh, s₁) ← readDigits 2 0 s
  match s₁ with
  | ':' :: s₂ => do
    let (mi, s₃) ← readDigits 2 0 s₂
    match s₃ with
    | ':' :: s₄ => do
      let (ss, s₅) ← readDigits 2 0 s₄
      match s₅ with
      | '.' :: s₆ => do
        let (us, s₇) ← readFrac s₆.length 0 0 s₆
        let off ← parseTzSuffix s₇
        pure (hh, mi, ss, us, off)
      | ',' :: s₆ => do
        let (us, s₇) ← readFrac s₆.length 0 0 s₆
        let off ← parseTzSuffix s₇
        pure (hh, mi, ss, us, off)
      | _ => do
        let off ← parseTzSuffix s₅
        pure (hh, mi, ss, 0, off)
    | _ => do
      let off ← parseTzSuffix s₃
      pure (hh, mi, 0, 0, off)
  | _ => do
    let off ← parseTzSuffix s₁
    pure (hh, 0, 0, 0, off)

/-- Model of `dateutil.parser.isoparse` on the extended ISO-8601 grammar
described above; `none` models the `ValueError` the library raises. -/
def isoparse (s : String) : Option PyDateTime := do
  let (y, s₁) ← readDigits 4 0 s.data
  let s₂ ← expectChar '-' s₁
  let (mo, s₃) ← readDigits 2 0 s₂
  let s₄ ← expectChar '-' s₃
  let (d, s₅) ← readDigits 2 0 s₄
  if 1 ≤ mo ∧ mo ≤ 12 ∧ 1 ≤ d ∧ d ≤ daysInMonth y mo then
    match s₅ with
    | [] => pure ⟨y, mo, d, 0, 0, 0, 0, none⟩
    | 'T' :: s₆ => do
      let (hh, mi, ss, us, off) ← parseClock s₆
      if hh ≤ 23 ∧ mi ≤ 59 ∧ ss ≤ 59 then
        pure ⟨y, mo, d, hh, mi, ss, us, off⟩
      else none
    | _ => none
  else none

/-- Zero-padded fixed-width decimal rendering. -/
def padNat (width n : Nat) : String :=
  let digits := natToStr n
  String.mk (List.replicate (width - digits.data.length) '0') ++ digits

/-- The `±HH:MM` suffix `datetime.isoformat` renders for an aware value. -/
def renderOffset (m : Int) : String :=
  let sign := if m < 0 then "-" else "+"
  let a := m.natAbs
  sign ++ padNat 2 (a / 60) ++ ":" ++ padNat 2 (a % 60)

/-- `datetime.isoformat()`: microseconds are omitted when zero, the offset
suffix is omitted for a naive value. -/
def isoformat (dt : PyDateTime) : String :=
  padNat 4 dt.year ++ "-" ++ padNat 2 dt.month ++ "-" ++ padNat 2 dt.day ++ "T"
    ++ padNat 2 dt.hour ++ ":" ++ padNat 2 dt.minute ++ ":" ++ padNat 2 dt.second
    ++ (if dt.microsecond = 0 then "" else "." ++ padNat 6 dt.microsecond)
    ++ (match dt.offsetMinutes with
        | none => ""
        | some m => renderOffset m)

/-- `dt.tzname() or 'UTC'` after the naive case has been replaced with
`tz.UTC`: `tz.UTC.tzname()` is `"UTC"`; for a nonzero offset `isoparse`
builds `tz.tzoffset(None, secs)`, whose `tzname()` is its name, `None`, so
the `or` falls back to `"UTC"` as well; a naive value's `tzname()` is also
`None`. -/
def tznameOrUTC (dt : PyDateTime) : String :=
  match dt.offsetMinutes with
  | none => "UTC"
  | some 0 => "UTC"
  | some _ => "UTC"

/-- `RedditRSSClient._parse_timestamp_with_timezone` (lines 122–145): parse
the string; a naive result is reinterpreted as UTC (`replace(tzinfo=tz.UTC)`);
on any parse failure fall back to the current UTC time (`now`, an aware
UTC `datetime` supplied by the environment). -/
def parse_timestamp_with_timezone (now : PyDateTime) (timestamp_str : String) :
    String × String :=
  match isoparse timestamp_str with
  | some dt =>
    let dt' := if dt.offsetMinutes.isNone then { dt with offsetMinutes := some 0 } else dt
    (isoformat dt', tznameOrUTC dt')
  | none => (isoformat now, "UTC")

/-! ## Feed parsing (`RedditRSSClient._parse_feed`, lines 147–239) -/

/-- One Atom `<entry>`, reduced to the fields `_parse_feed` reads.  For
`title`, `summary`, `updated`, `published` and `author/name`, a missing
element and an element with `None` text lead to the same outcome in the
code, so both are collapsed into `none`.  For `<id>` the two cases differ
(a missing element falls back to the URL, `None` text does not), hence the
two-level option: `none` = element absent, `some none` = element present
with `None` text. -/
structure RawEntry where
  title : Option String
  summary : Option String
  updated : Option String
  published : Option String
  linkHref : Option String
  authorName : Option String
  idText : Option (Option String)
deriving Repr, DecidableEq

/-- Python truthiness of `Optional[str]`: `None` and `''` are falsy. -/
def truthyStr : Option String → Bool
  | none => false
  | some s => s ≠ ""

/-- Lines 191–192: `created_str = (updated…) or (published…)`, collapsed
with the `if created_str:` test at line 194: the result is the first
truthy candidate, or `none` when both are falsy. -/
def pickCreated (updated published : Option String) : Option String :=
  if truthyStr updated then updated
  else if truthyStr published then published
  else none

/-- `"\n\n".join(text_parts)`. -/
def joinBlankLine : List String → String
  | [] => ""
  | [s] => s
  | s :: rest => s ++ "\n\n" ++ joinBlankLine rest

/-- The body of the `for entry in entries:` loop (lines 166–238),
normalizing one entry; `resultCount` is `len(results)` at the time the
entry is processed (one post is appended per entry). -/
def parse_entry (now : PyDateTime) (subreddit : String) (resultCount : Nat)
    (e : RawEntry) : Post :=
  let title := if truthyStr e.title then String.mk (htmlUnescape (e.title.getD "").data) else ""
  let summary := String.mk (htmlUnescape (e.summary.getD "").data)
  let text_parts :=
    (if pyStrip title ≠ "" then [pyStrip title] else [])
      ++ (if pyStrip summary ≠ "" then [pyStrip summary] else [])
  let text := if text_parts.isEmpty then "(no content)" else joinBlankLine text_parts
  let ct :=
    match pickCreated e.updated e.published with
    | some s => parse_timestamp_with_timezone now s
    | none => (isoformat now, "UTC")
  let url := e.linkHref.getD ""
  let author := e.authorName.getD "unknown"
  let raw_id : Option String :=
    match e.idText with
    | none => some url
    | some t => t
  let reddit_id := deriveRedditId raw_id subreddit resultCount
  { id := "reddit_" ++ reddit_id
    reddit_id := reddit_id
    url := url
    subreddit := subreddit
    title := title
    text := text
    author := author
    created_at := ct.1
    timezone := ct.2 }

/-- The entry loop, threading `len(results)`. -/
def parse_entries (now : PyDateTime) (subreddit : String) :
    Nat → List RawEntry → List Post
  | _, [] => []
  | i, e :: es => parse_entry now subreddit i e :: parse_entries now subreddit (i + 1) es

/-- The outcome of `ET.fromstring` plus `findall('.//atom:entry')`:
either the document is malformed (`ParseError`) or it yields a list of
entries (possibly empty). -/
inductive RawDoc where
  | malformed
  | doc (entries : List RawEntry)

/-- `RedditRSSClient._parse_feed`: a malformed document yields `[]`
(lines 159–162); otherwise every entry is normalized into one post. -/
def parse_feed (now : PyDateTime) (content : RawDoc) (subreddit : String) : List Post :=
  match content with
  | .malformed => []
  | .doc entries => parse_entries now subreddit 0 entries

/-! ## Schema migrations (`src/backend/migrations.py`)

The SQLite structural statements the migration steps issue are embedded as
a small statement language over an explicit schema state.  `runStep`
models one `DatabaseMigration._get_connection` block (lines 22–34) under
Python sqlite3's legacy (default) transaction control: an implicit
`BEGIN` is opened only before a DML statement (`INSERT`/`UPDATE`); DDL
statements (`CREATE TABLE`/`CREATE INDEX`/`ALTER TABLE`) executed while no
transaction is open run in autocommit mode and are durable immediately,
while any statement executed inside an open transaction joins it.  When a
statement raises (`failAt = some k` means statement `k` raises), the
context manager's `conn.rollback()` discards only the open transaction's
uncommitted work — already-autocommitted DDL persists; when every
statement succeeds, `conn.commit()` makes the pending work durable. -/

/-- A column together with the constraints its `CREATE TABLE`/`ALTER TABLE`
text declares. -/
structure ColumnDef where
  name : String
  ctype : String
  notNull : Bool := false
  unique : Bool := false
  primaryKey : Bool := false
  autoincrement : Bool := false
  dflt : Option String := none
  refTable : Option String := none
  refColumn : Option String := none
  onDeleteCascade : Bool := false
deriving Repr, DecidableEq

/-- A table: columns plus a composite `PRIMARY KEY (…)` table constraint
when present. -/
structure TableDef where
  name : String
  columns : List ColumnDef
  primaryKeyCols : List String := []
deriving Repr, DecidableEq

/-- An index as `CREATE INDEX` declares it (the single descending case is
`idx_created_at ON posts(created_at DESC)` of `_create_base_schema`). -/
structure IndexDef where
  name : String
  table : String
  column : String
  descending : Bool := false
deriving Repr, DecidableEq

/-- The structural statements the migration steps issue. -/
inductive Stmt where
  | createTable (t : TableDef)
  | createIdx (i : IndexDef)
  | addColumn (table : String) (c : ColumnDef)
  | insertVersion (v : Int)
  | updateVersion (v : Int)
deriving Repr, DecidableEq

/-- The persistent store: tables, indexes, and the rows of the
`schema_version` table (meaningful once that table exists). -/
structure DBState where
  tables : List TableDef
  indexes : List IndexDef
  versionRows : List Int
deriving Repr, DecidableEq

/-- Effect of one statement.  `CREATE TABLE/INDEX IF NOT EXISTS` are
no-ops when the object exists; `ALTER TABLE … ADD COLUMN` appends the
column; `INSERT` appends a row to `schema_version`; `UPDATE … SET
version = v` (no `WHERE`) rewrites every row. -/
def applyStmt (s : DBState) : Stmt → DBState
  | .createTable t =>
    if s.tables.any (fun u => u.name = t.name) then s
    else { s with tables := s.tables ++ [t] }
  | .createIdx i =>
    if s.indexes.any (fun j => j.name = i.name) then s
    else { s with indexes := s.indexes ++ [i] }
  | .addColumn tname c =>
    { s with
      tables := s.tables.map (fun t =>
        if t.name = tname then { t with columns := t.columns ++ [c] } else t) }
  | .insertVersion v => { s with versionRows := s.versionRows ++ [v] }
  | .updateVersion v => { s with versionRows := s.versionRows.map (fun _ => v) }

/-- Whether a statement is DML, the only class before which Python
sqlite3's legacy transaction control issues an implicit `BEGIN`; DDL
(`CREATE`/`ALTER`) outside an open transaction autocommits. -/
def stmtIsDML : Stmt → Bool
  | .insertVersion _ => true
  | .updateVersion _ => true
  | .createTable _ => false
  | .createIdx _ => false
  | .addColumn _ _ => false

/-- Worker for `runStep`.  `durable` is what is already committed on disk,
`pending` what the connection sees (equal to `durable` while no
transaction is open), `inTxn` whether an implicit transaction is open.
Reaching the end of the statements models `conn.commit()` (the pending
work becomes durable); `failAt = some 0` means the next statement raises,
so `conn.rollback()` runs and only the `durable` part survives. -/
def runStepAux : DBState → DBState → Bool → List Stmt → Option Nat → DBState
  | _, pending, _, [], _ => pending
  | durable, _, _, _ :: _, some 0 => durable
  | durable, pending, inTxn, stmt :: rest, failAt =>
    let pending' := applyStmt pending stmt
    let failAt' := failAt.map (fun k => k - 1)
    if stmtIsDML stmt || inTxn then
      runStepAux durable pending' true rest failAt'
    else
      runStepAux pending' pending' false rest failAt'

/-- One `_get_connection` block under legacy sqlite3 transaction control:
DDL before the first DML is durable as soon as it executes; the implicit
transaction opened by a DML statement is committed at the end of the
block or rolled back when a later statement raises (`failAt = some k`:
statement `k` raises and takes no effect). -/
def runStep (s : DBState) (stmts : List Stmt) (failAt : Option Nat) : DBState :=
  runStepAux s s false stmts failAt

/-- `DatabaseMigration.get_current_version` (lines 36–57): `0` when the
`schema_version` table is absent, else the first row (or `0` if empty). -/
def get_current_version (s : DBState) : Int :=
  if s.tables.any (fun t => t.name = "schema_version") then
    s.versionRows.head?.getD 0
  else 0

/-- `schema_version` (lines 95–99 / 338–342). -/
def schemaVersionTable : TableDef where
  name := "schema_version"
  columns := [{ name := "version", ctype := "INTEGER", notNull := true }]

/-- The `posts` table as `_create_base_schema` creates it
(lines 346–362). -/
def postsTableFull : TableDef where
  name := "posts"
  columns :=
    [{ name := "id", ctype := "TEXT", primaryKey := true },
     { name := "reddit_id", ctype := "TEXT", unique := true },
     { name := "url", ctype := "TEXT" },
     { name := "subreddit", ctype := "TEXT" },
     { name := "title", ctype := "TEXT" },
     { name := "text", ctype := "TEXT", notNull := true },
     { name := "author", ctype := "TEXT" },
     { name := "created_at", ctype := "TEXT", notNull := true },
     { name := "timezone", ctype := "TEXT" },
     { name := "sentiment_label", ctype := "TEXT", notNull := true },
     { name := "sentiment_score", ctype := "REAL", notNull := true },
     { name := "sentiment_scores", ctype := "TEXT", notNull := true },
     { name := "analyzed_at", ctype := "TEXT", notNull := true }]

/-- `sectors` (lines 371–376). -/
def sectorsTable : TableDef where
  name := "sectors"
  columns :=
    [{ name := "id", ctype := "INTEGER", primaryKey := true, autoincrement := true },
     { name := "name", ctype := "TEXT", unique := true, notNull := true }]

/-- `industries` (lines 379–384). -/
def industriesTable : TableDef where
  name := "industries"
  columns :=
    [{ name := "id", ctype := "INTEGER", primaryKey := true, autoincrement := true },
     { name := "name", ctype := "TEXT", unique := true, notNull := true }]

/-- `tickers` (lines 387–397). -/
def tickersTable : TableDef where
  name := "tickers"
  columns :=
    [{ name := "id", ctype := "INTEGER", primaryKey := true, autoincrement := true },
     { name := "symbol", ctype := "TEXT", unique := true, notNull := true },
     { name := "company_name", ctype := "TEXT" },
     { name := "sector_id", ctype := "INTEGER", refTable := some "sectors", refColumn := some "id" },
     { name := "industry_id", ctype := "INTEGER", refTable := some "industries", refColumn := some "id" }]

/-- `post_tickers` (lines 401–409). -/
def postTickersTable : TableDef where
  name := "post_tickers"
  columns :=
    [{ name := "post_id", ctype := "TEXT", notNull := true, refTable := some "posts",
       refColumn := some "id", onDeleteCascade := true },
     { name := "ticker_id", ctype := "INTEGER", notNull := true, refTable := some "tickers",
       refColumn := some "id", onDeleteCascade := true }]
  primaryKeyCols := ["post_id", "ticker_id"]

/-- `post_industries` (lines 413–421). -/
def postIndustriesTable : TableDef where
  name := "post_industries"
  columns :=
    [{ name := "post_id", ctype := "TEXT", notNull := true, refTable := some "posts",
       refColumn := some "id", onDeleteCascade := true },
     { name := "industry_id", ctype := "INTEGER", notNull := true, refTable := some "industries",
       refColumn := some "id", onDeleteCascade := true }]
  primaryKeyCols := ["post_id", "industry_id"]

/-- `post_sectors` (lines 425–433). -/
def postSectorsTable : TableDef where
  name := "post_sectors"
  columns :=
    [{ name := "post_id", ctype := "TEXT", notNull := true, refTable := some "posts",
       refColumn := some "id", onDeleteCascade := true },
     { name := "sector_id", ctype := "INTEGER", notNull := true, refTable := some "sectors",
       refColumn := some "id", onDeleteCascade := true }]
  primaryKeyCols := ["post_id", "sector_id"]

/-- `watchlists` (lines 443–449). -/
def watchlistsTable : TableDef where
  name := "watchlists"
  columns :=
    [{ name := "id", ctype := "INTEGER", primaryKey := true, autoincrement := true },
     { name := "name", ctype := "TEXT", notNull := true },
     { name := "created_at", ctype := "TEXT", notNull := true, dflt := some "CURRENT_TIMESTAMP" }]

/-- `watchlist_tickers` (lines 452–460). -/
def watchlistTickersTable : TableDef where
  name := "watchlist_tickers"
  columns :=
    [{ name := "watchlist_id", ctype := "INTEGER", notNull := true, refTable := some "watchlists",
       refColumn := some "id", onDeleteCascade := true },
     { name := "ticker", ctype := "TEXT", notNull := true },
     { name := "added_at", ctype := "TEXT", notNull := true, dflt := some "CURRENT_TIMESTAMP" }]
  primaryKeyCols := ["watchlist_id", "ticker"]

/-- The ticker/industry/sector tables, junction tables and their indexes,
created identically (and in the same order) by `_migrate_v1_to_v2`
(lines 221–283) and `_create_base_schema` (lines 370–435). -/
def enrichmentStmts : List Stmt :=
  [.createTable sectorsTable,
   .createTable industriesTable,
   .createTable tickersTable,
   .createIdx { name := "idx_ticker_symbol", table := "tickers", column := "symbol" },
   .createTable postTickersTable,
   .createIdx { name := "idx_post_tickers_post", table := "post_tickers", column := "post_id" },
   .createIdx { name := "idx_post_tickers_ticker", table := "post_tickers", column := "ticker_id" },
   .createTable postIndustriesTable,
   .createIdx { name := "idx_post_industries_post", table := "post_industries", column := "post_id" },
   .createIdx { name := "idx_post_industries_industry", table := "post_industries", column := "industry_id" },
   .createTable postSectorsTable,
   .createIdx { name := "idx_post_sectors_post", table := "post_sectors", column := "post_id" },
   .createIdx { name := "idx_post_sectors_sector", table := "post_sectors", column := "sector_id" }]

/-- The columns `_migrate_v1_to_v2` adds when missing (lines 207–214):
`ALTER TABLE posts ADD COLUMN <name> <type>` declares no constraint. -/
def v1v2NewColumns : List ColumnDef :=
  [{ name := "url", ctype := "TEXT" },
   { name := "subreddit", ctype := "TEXT" },
   { name := "title", ctype := "TEXT" },
   { name := "author", ctype := "TEXT" },
   { name := "timezone", ctype := "TEXT" },
   { name := "reddit_id", ctype := "TEXT" }]

/-- Column names currently on a table (the `PRAGMA table_info(posts)` read
at lines 203–204). -/
def columnNamesOf (s : DBState) (tname : String) : List String :=
  (((s.tables.find? (fun t => t.name = tname)).map (fun t => t.columns)).getD []).map
    (fun c => c.name)

/-- The statements `_migrate_v1_to_v2` issues (lines 197–293), as generated
from the state it reads: the missing new columns, the enrichment tables and
indexes, `idx_subreddit`/`idx_url`, and finally
`UPDATE schema_version SET version = ?` with `self.CURRENT_VERSION`,
which is `3` (line 11) — not `2`. -/
def migrateV1toV2Stmts (s : DBState) : List Stmt :=
  ((v1v2NewColumns.filter (fun c => !((columnNamesOf s "posts").contains c.name))).map
      (Stmt.addColumn "posts"))
    ++ enrichmentStmts
    ++ [.createIdx { name := "idx_subreddit", table := "posts", column := "subreddit" },
        .createIdx { name := "idx_url", table := "posts", column := "url" },
        .updateVersion 3]

/-- `DatabaseMigration._migrate_v1_to_v2` as one transaction. -/
def migrate_v1_to_v2 (s : DBState) (failAt : Option Nat) : DBState :=
  runStep s (migrateV1toV2Stmts s) failAt

/-- The watchlist statements, issued identically by `_migrate_v2_to_v3`
(lines 437–466) and by the second transaction of `_create_v3_schema`
(lines 301–330), ending with `UPDATE schema_version SET version = 3`. -/
def migrateV2toV3Stmts : List Stmt :=
  [.createTable watchlistsTable,
   .createTable watchlistTickersTable,
   .createIdx { name := "idx_watchlist_tickers_watchlist", table := "watchlist_tickers", column := "watchlist_id" },
   .createIdx { name := "idx_watchlist_tickers_ticker", table := "watchlist_tickers", column := "ticker" },
   .updateVersion 3]

/-- `DatabaseMigration._migrate_v2_to_v3` as one transaction. -/
def migrate_v2_to_v3 (s : DBState) (failAt : Option Nat) : DBState :=
  runStep s migrateV2toV3Stmts failAt

/-- The statements of `_create_base_schema` (lines 332–435): version table
with row `2`, full `posts` table, its four indexes (`idx_created_at` is on
`created_at DESC` here), then the enrichment tables and indexes. -/
def createBaseSchemaStmts : List Stmt :=
  [.createTable schemaVersionTable,
   .insertVersion 2,
   .createTable postsTableFull,
   .createIdx { name := "idx_created_at", table := "posts", column := "created_at", descending := true },
   .createIdx { name := "idx_sentiment_label", table := "posts", column := "sentiment_label" },
   .createIdx { name := "idx_subreddit", table := "posts", column := "subreddit" },
   .createIdx { name := "idx_url", table := "posts", column := "url" }]
    ++ enrichmentStmts

/-- `DatabaseMigration._create_base_schema` as one transaction. -/
def create_base_schema (s : DBState) (failAt : Option Nat) : DBState :=
  runStep s createBaseSchemaStmts failAt

/-- `DatabaseMigration._create_v3_schema` (lines 295–330): the base-schema
transaction followed by the watchlist transaction. -/
def create_v3_schema (s : DBState) (failAt₁ failAt₂ : Option Nat) : DBState :=
  migrate_v2_to_v3 (create_base_schema s failAt₁) failAt₂

/-- `DatabaseMigration.run_migrations` (lines 68–87) on the happy path
(no statement raises). -/
def run_migrations (s : DBState) : Except String DBState :=
  let v := get_current_version s
  if v = 0 then .ok (create_v3_schema s none none)
  else if v = 1 then .ok (migrate_v2_to_v3 (migrate_v1_to_v2 s none) none)
  else if v = 2 then .ok (migrate_v2_to_v3 s none)
  else if v = 3 then .ok s
  else .error "Unknown database version"

/-- A fresh store (version 0: no `schema_version` table). -/
def emptyState : DBState := { tables := [], indexes := [], versionRows := [] }

/-- Modelled from the spec: the version-1 "legacy minimal schema"
(§4.6 state 1) is never constructed anywhere under src/ — `migrations.py`
only migrates away from it.  Its `posts` table is taken to carry exactly
the columns `_migrate_v1_to_v2` does **not** add (with the constraints the
later schema declares for them), no secondary indexes, and a
`schema_version` table holding `1`. -/
def postsTableV1 : TableDef where
  name := "posts"
  columns :=
    [{ name := "id", ctype := "TEXT", primaryKey := true },
     { name := "text", ctype := "TEXT", notNull := true },
     { name := "created_at", ctype := "TEXT", notNull := true },
     { name := "sentiment_label", ctype := "TEXT", notNull := true },
     { name := "sentiment_score", ctype := "REAL", notNull := true },
     { name := "sentiment_scores", ctype := "TEXT", notNull := true },
     { name := "analyzed_at", ctype := "TEXT", notNull := true }]

/-- Modelled from the spec: a store observed at version 1 (see
`postsTableV1`). -/
def v1State : DBState where
  tables := [schemaVersionTable, postsTableV1]
  indexes := []
  versionRows := [1]

/-- The store after the observed-version-1 path of `run_migrations`. -/
def v1FinalState : DBState := migrate_v2_to_v3 (migrate_v1_to_v2 v1State none) none

/-- The store after the fresh (version-0) path of `run_migrations`. -/
def freshFinalState : DBState := create_v3_schema emptyState none none

/-- The column definitions of the `posts` table of a state. -/
def postsColumns (s : DBState) : List ColumnDef :=
  ((s.tables.find? (fun t => t.name = "posts")).map (fun t => t.columns)).getD []

/-- The `UNIQUE`ness recorded for a `posts` column, when the column
exists. -/
def postsColUnique (s : DBState) (cname : String) : Option Bool :=
  ((postsColumns s).find? (fun c => c.name = cname)).map (fun c => c.unique)

/-- Table names of a state, in creation order. -/
def tableNamesOf (s : DBState) : List String := s.tables.map (fun t => t.name)

/-- Index names of a state, in creation order. -/
def indexNamesOf (s : DBState) : List String := s.indexes.map (fun i => i.name)

/-! ## The `/api/v1/fetch-posts` endpoint (`src/backend/app.py`, lines 94–174)

The endpoint validates its parameters and then runs
`reddit_client.fetch_posts(query, max_results, start_date, end_date)`
(line 115) inside a `try`, enriching and persisting each returned post and
answering `FETCH_ERROR` from the `except` branch (lines 170–174).

Python binds a call by arity: `RedditRSSClient.fetch_posts` declares the
two parameters `(query, max_results)` besides `self`
(reddit_rss_client.py line 82), while the endpoint passes four positional
arguments, so the call raises `TypeError` before the client body runs. -/

/-- The parameters `def fetch_posts(self, query=None, max_results=10)`
declares besides `self`. -/
def redditFetchPostsParamCount : Nat := 2

/-- The positional arguments app.py line 115 passes
(`query, max_results, start_date, end_date`). -/
def endpointCallArgCount : Nat := 4

/-- The endpoint's outcome: the success payload (each surviving post with
its sentiment annotation) or the `FETCH_ERROR` response produced by the
`except` branch. -/
inductive ApiResult (σ : Type) where
  | ok (posts : List (Post × σ)) (count : Nat)
  | fetchError

/-- The collaborators the endpoint's happy path would consume; the
sentiment payload type is abstract (`σ`). -/
structure EndpointEnv (σ : Type) where
  client : ClientConfig
  fetch : String → String → Int → Option (List Post)
  analyze : String → σ

/-- The `/api/v1/fetch-posts` flow after parameter validation: if the
`fetch_posts` call bound (it would need at least `endpointCallArgCount`
parameters), the posts it returned would be analyzed and enriched; the
arity mismatch makes the call raise `TypeError` instead, which the
`except` at line 170 turns into `FETCH_ERROR` — no post is filtered by
date, enriched, or persisted. -/
def fetch_posts_endpoint {σ : Type} (env : EndpointEnv σ) (query : String)
    (max_results : Int) (start_date end_date : Option String) : ApiResult σ :=
  if endpointCallArgCount ≤ redditFetchPostsParamCount then
    let posts := client_fetch_posts env.client env.fetch (some query) max_results
    .ok (posts.map (fun p => (p, env.analyze p.text))) posts.length
  else .fetchError

/-! ## Concrete fixtures for closed witnesses -/

/-- A sample parsed post whose title and text pass the default filter. -/
def samplePost : Post :=
  ⟨"reddit_x1", "x1", "", "investing", "tsla rally", "tsla rally", "u1",
   "2024-01-01T00:00:00+00:00", "UTC"⟩

/-- A fetch stub where the source `"stocks"` fails (network error) and
every other source returns one post. -/
def sampleFetch : String → String → Int → Option (List Post) :=
  fun s _ _ => if s = "stocks" then none else some [samplePost]

/-- A two-source client configuration with the default filter rules. -/
def sampleConfig : ClientConfig :=
  ⟨["stocks", "investing"], "ua", "dq", defaultFilterPatterns⟩

/-! ## Theorems -/

/-- **C4.** For every requested cap `R > 0` and configured source count
`N ≥ 1`, the per-source quota of `fetch_posts` is
`max(1, min(50, floor(R / N) + 1))`; `R ≤ 0` yields no fetch and the empty
list; and `R = 10`, `N = 4` gives quota `3`. -/
theorem quota_formula :
    (∀ (R : Int) (N : Nat), 0 < R → 1 ≤ N →
      per_sub_limit R N = max 1 (min 50 (Int.ofNat (R.toNat / N) + 1))) ∧
    (∀ (cfg : ClientConfig) (fetch : String → String → Int → Option (List Post))
        (q : Option String) (R : Int), R ≤ 0 → client_fetch_posts cfg fetch q R = []) ∧
    per_sub_limit 10 4 = 3 := by
  refine ⟨?_, ?_, by decide⟩
  · intro R N hR hN
    obtain ⟨r, rfl⟩ : ∃ r : Nat, R = Int.ofNat r :=
      ⟨R.toNat, (Int.toNat_of_nonneg hR.le).symm⟩
    have hmax : max (Int.ofNat N) 1 = Int.ofNat N := by
      apply max_eq_left; exact Int.ofNat_le.mpr hN
    have hfdiv : Int.fdiv (Int.ofNat r) (Int.ofNat N) = Int.ofNat (r / N) :=
      (Int.ofNat_fdiv r N).symm
    rw [per_sub_limit, hmax, hfdiv]
    rfl
  · intro cfg fetch q R hR
    simp [client_fetch_posts, if_pos hR]

/-- Witness for C4: `R = 10` with `N = 4` sources gives quota
`max 1 (min 50 (10 / 4 + 1)) = 3`, and `R = 0` fetches nothing. -/
theorem quota_formula_witness :
    per_sub_limit 10 4 = max 1 (min 50 (Int.ofNat ((10 : Int).toNat / 4) + 1)) ∧
    client_fetch_posts ⟨["stocks"], "ua", "q", defaultFilterPatterns⟩
      (fun _ _ _ => none) none 0 = [] :=
  ⟨quota_formula.1 10 4 (by decide) (by decide),
   quota_formula.2.1 _ _ _ 0 (by decide)⟩

/-- **C1.** The spec requires date-range filtering before enrichment, but
`RedditRSSClient.fetch_posts` declares no date parameters and performs no
date filtering, and the endpoint's four-positional-argument call to it
(app.py line 115) cannot bind — it raises `TypeError`, so every request
through this flow (date range supplied or not) lands in the `except`
branch and answers `FETCH_ERROR`: no post is ever dropped by date,
retained, or enriched. -/
theorem fetch_posts_endpoint_always_fetch_error :
    ∀ (σ : Type) (env : EndpointEnv σ) (query : String) (max_results : Int)
      (start_date end_date : Option String),
      fetch_posts_endpoint env query max_results start_date end_date
        = ApiResult.fetchError := by
  intro σ env query max_results start_date end_date
  simp [fetch_posts_endpoint, endpointCallArgCount, redditFetchPostsParamCount]

/-- **C3.** Evaluating the 1→2 step under the legacy sqlite3 transaction
semantics: the persisted version is advanced only after every structural
statement of the step succeeds — a failure at any statement leaves
version 1 recorded, because the `UPDATE schema_version` is the step's
last statement and the only one the rollback governs.  But the step is
**not** all-or-nothing: its `ALTER`/`CREATE` statements autocommit, so a
failure at statement 1 leaves the first added column (`url`) durably on
`posts` instead of restoring the prior state; and the completed step
records version `3` (`self.CURRENT_VERSION`, migrations.py lines
290–291), not its own target version `2`, contradicting the claim, the
method's docstring, and its own log line. -/
theorem migration_step_partial_commit_and_recorded_version :
    (∀ k : Nat, k < (migrateV1toV2Stmts v1State).length →
      get_current_version (migrate_v1_to_v2 v1State (some k)) = 1) ∧
    migrate_v1_to_v2 v1State (some 1) ≠ v1State ∧
    (columnNamesOf (migrate_v1_to_v2 v1State (some 1)) "posts").contains "url" = true ∧
    (columnNamesOf v1State "posts").contains "url" = false ∧
    get_current_version (migrate_v1_to_v2 v1State none) = 3 ∧
    (3 : Int) ≠ 2 := by
  refine ⟨?_, by decide, by decide, by decide, by decide, by decide⟩
  decide

/-- Witness for C3: failing the first statement of the 1→2 step keeps
version 1 recorded; failing the second leaves the autocommitted `url`
column behind; the successfully completed step records version 3. -/
theorem migration_step_partial_commit_witness :
    get_current_version (migrate_v1_to_v2 v1State (some 0)) = 1 ∧
    migrate_v1_to_v2 v1State (some 1) ≠ v1State ∧
    get_current_version (migrate_v1_to_v2 v1State none) = 3 :=
  ⟨migration_step_partial_commit_and_recorded_version.1 0 (by decide),
   migration_step_partial_commit_and_recorded_version.2.1,
   migration_step_partial_commit_and_recorded_version.2.2.2.2.1⟩

/-- **C2, counterexample.** Running the observed-version-1 path and the
fresh path of `run_migrations` does *not* produce identical column
constraints on `posts`: the fresh path declares `reddit_id TEXT UNIQUE`
while the migrated path adds `reddit_id` via `ALTER TABLE … ADD COLUMN`
with no constraint; and (with the spec-modelled legacy v1 store, which has
no secondary indexes) the migrated path never creates `idx_created_at`,
so the index sets differ too. -/
theorem migration_paths_not_identical :
    run_migrations v1State = .ok v1FinalState ∧
    run_migrations emptyState = .ok freshFinalState ∧
    postsColUnique v1FinalState "reddit_id" = some false ∧
    postsColUnique freshFinalState "reddit_id" = some true ∧
    postsColumns v1FinalState ≠ postsColumns freshFinalState ∧
    "idx_created_at" ∈ indexNamesOf freshFinalState ∧
    "idx_created_at" ∉ indexNamesOf v1FinalState :=
  ⟨rfl, rfl, by decide, by decide, by decide, by decide, by decide⟩

/-- **C2, amended.** Both migration paths end at version 3 with the same
tables in the same order and the same set of column names on `posts`; they
do **not** agree on the column constraints (`reddit_id` is `UNIQUE` only on
the fresh path) or on the `posts` index set (the migrated path creates
only `idx_subreddit` and `idx_url` on `posts`, so `idx_created_at` and
`idx_sentiment_label` are absent when the legacy store lacked them). -/
theorem migration_paths_agree_on_tables_and_names :
    tableNamesOf v1FinalState = tableNamesOf freshFinalState ∧
    ((postsColumns v1FinalState).map (fun c => c.name)).Perm
      ((postsColumns freshFinalState).map (fun c => c.name)) ∧
    get_current_version v1FinalState = 3 ∧
    get_current_version freshFinalState = 3 := by
  exact ⟨by decide, by decide, by decide, by decide⟩

/-- `(l.find? p).isSome` agrees with `l.any p`. -/
theorem find?_isSome_eq_any {α : Type} (p : α → Bool) :
    ∀ l : List α, (l.find? p).isSome = l.any p := by
  intro l
  induction l with
  | nil => rfl
  | cons a l ih =>
    by_cases h : p a = true
    · simp [List.find?, List.any, h]
    · simp only [Bool.not_eq_true] at h
      simp [List.find?, List.any, h, ih]

/-- **C6.** A post is excluded iff some configured title regex matches the
lower-cased title or some configured keyword is a substring of the
lower-cased combined `"{title} {body}"` text; evaluation is the ordered
first-match of the title pass then the keyword pass
(`firstFilterRule`); with the defaults, the title
`"Daily Discussion Thread - Jan 1"` is excluded regardless of body, and
`"AAPL earnings beat estimates"` with no matching keyword is included. -/
theorem content_filter_characterization :
    (∀ (fp : FilterPatterns) (title text : String),
      (should_filter_post fp title text = true ↔
        (∃ p ∈ fp.exclude_titles, reSearch p (pyLower title) = true) ∨
        (∃ k ∈ fp.exclude_keywords,
          containsSub (pyLower k).data (pyLower title ++ " " ++ pyLower text).data = true)) ∧
      should_filter_post fp title text = (firstFilterRule fp title text).isSome ∧
      (∀ p, fp.exclude_titles.find? (fun pat => reSearch pat (pyLower title)) = some p →
        firstFilterRule fp title text = some (.titleRegex p))) ∧
    (∀ body : String,
      should_filter_post defaultFilterPatterns "Daily Discussion Thread - Jan 1" body = true) ∧
    (∀ body : String,
      (∀ k ∈ defaultFilterPatterns.exclude_keywords,
        containsSub (pyLower k).data
          (pyLower "AAPL earnings beat estimates" ++ " " ++ pyLower body).data = false) →
      should_filter_post defaultFilterPatterns "AAPL earnings beat estimates" body = false) := by
  refine ⟨?_, ?_, ?_⟩
  · intro fp title text
    refine ⟨?_, ?_, ?_⟩
    · simp only [should_filter_post, Bool.or_eq_true, List.any_eq_true]
    · simp only [should_filter_post, firstFilterRule]
      cases hfind : fp.exclude_titles.find? (fun pat => reSearch pat (pyLower title)) with
      | some p =>
        have : fp.exclude_titles.any (fun pat => reSearch pat (pyLower title)) = true := by
          rw [← find?_isSome_eq_any, hfind]; rfl
        simp [this]
      | none =>
        have : fp.exclude_titles.any (fun pat => reSearch pat (pyLower title)) = false := by
          rw [← find?_isSome_eq_any, hfind]; rfl
        simp only [this, Bool.false_or]
        rw [← find?_isSome_eq_any]
        cases hf2 : fp.exclude_keywords.find?
            (fun k => containsSub (pyLower k).data (pyLower title ++ " " ++ pyLower text).data) with
        | none => rfl
        | some k => rfl
    · intro p hp
      simp only [firstFilterRule, hp]
  · intro body
    have h : (defaultFilterPatterns.exclude_titles.any
        fun pattern => reSearch pattern (pyLower "Daily Discussion Thread - Jan 1")) = true := by
      decide
    show ((defaultFilterPatterns.exclude_titles.any
        fun pattern => reSearch pattern (pyLower "Daily Discussion Thread - Jan 1"))
      || (defaultFilterPatterns.exclude_keywords.any fun keyword =>
            containsSub (pyLower keyword).data
              (pyLower "Daily Discussion Thread - Jan 1" ++ " " ++ pyLower body).data)) = true
    rw [h, Bool.true_or]
  · intro body hk
    have h1 : (defaultFilterPatterns.exclude_titles.any
        fun pattern => reSearch pattern (pyLower "AAPL earnings beat estimates")) = false := by
      decide
    have h2 : (defaultFilterPatterns.exclude_keywords.any fun keyword =>
        containsSub (pyLower keyword).data
          (pyLower "AAPL earnings beat estimates" ++ " " ++ pyLower body).data) = false := by
      rw [List.any_eq_false]
      intro k hkmem
      simp only [Bool.not_eq_true]
      exact hk k hkmem
    show ((defaultFilterPatterns.exclude_titles.any
        fun pattern => reSearch pattern (pyLower "AAPL earnings beat estimates"))
      || (defaultFilterPatterns.exclude_keywords.any fun keyword =>
            containsSub (pyLower keyword).data
              (pyLower "AAPL earnings beat estimates" ++ " " ++ pyLower body).data)) = false
    rw [h1, h2]
    rfl

/-- Witness for C6: the default rules exclude the daily-discussion title
with an arbitrary body and keep the AAPL title with an empty body. -/
theorem content_filter_characterization_witness :
    should_filter_post defaultFilterPatterns "Daily Discussion Thread - Jan 1" "any body" = true ∧
    should_filter_post defaultFilterPatterns "AAPL earnings beat estimates" "" = false :=
  ⟨content_filter_characterization.2.1 "any body",
   content_filter_characterization.2.2 "" (by decide)⟩

/-- `containsSub` is monotone under shrinking the needle to a prefix. -/
theorem containsSub_of_needle_pre {a b : List Char} (hab : a.isPrefixOf b = true) :
    ∀ h : List Char, containsSub b h = true → containsSub a h = true := by
  have hpre : a <+: b := List.isPrefixOf_iff_prefix.mp hab
  intro h
  induction h with
  | nil =>
    intro hh
    simp only [containsSub, List.isEmpty_iff] at hh ⊢
    subst hh
    exact List.prefix_nil.mp hpre
  | cons c cs ih =>
    intro hh
    simp only [containsSub, Bool.or_eq_true] at hh ⊢
    rcases hh with hh | hh
    · left
      exact List.isPrefixOf_iff_prefix.mpr (hpre.trans (List.isPrefixOf_iff_prefix.mp hh))
    · right
      exact ih hh

/-- **C10.** The keyword pass matches raw substrings of the combined
lower-cased text: any post whose combined text contains
`"should investors"` is excluded by the default keyword `"should i"`. -/
theorem keyword_pass_raw_substring :
    ∀ title text : String,
      containsSub "should investors".data
        (pyLower title ++ " " ++ pyLower text).data = true →
      should_filter_post defaultFilterPatterns title text = true := by
  intro title text h
  have hk : containsSub (pyLower "should i").data
      (pyLower title ++ " " ++ pyLower text).data = true :=
    containsSub_of_needle_pre (by decide) _ h
  have h2 : (defaultFilterPatterns.exclude_keywords.any fun keyword =>
      containsSub (pyLower keyword).data
        (pyLower title ++ " " ++ pyLower text).data) = true :=
    List.any_eq_true.mpr ⟨"should i", by decide, hk⟩
  show ((defaultFilterPatterns.exclude_titles.any fun pattern => reSearch pattern (pyLower title))
      || (defaultFilterPatterns.exclude_keywords.any fun keyword =>
            containsSub (pyLower keyword).data
              (pyLower title ++ " " ++ pyLower text).data)) = true
  rw [h2, Bool.or_true]

/-- Witness for C10: a concrete post whose body contains
`"should investors"` inside a longer phrase is excluded. -/
theorem keyword_pass_raw_substring_witness :
    should_filter_post defaultFilterPatterns "Market question"
      "Should investors buy the dip?" = true :=
  keyword_pass_raw_substring "Market question" "Should investors buy the dip?" (by decide)

/-- One post is produced per entry. -/
theorem parse_entries_length (now : PyDateTime) (sub : String) :
    ∀ (i : Nat) (es : List RawEntry), (parse_entries now sub i es).length = es.length := by
  intro i es
  induction es generalizing i with
  | nil => rfl
  | cons e es ih => simp [parse_entries, ih]

/-- **C7.** The feed parser is total (never raises past its boundary): a
malformed document yields the empty list, and a well-formed document
yields exactly one normalized record per entry. -/
theorem parse_feed_total :
    ∀ (now : PyDateTime) (sub : String),
      parse_feed now RawDoc.malformed sub = [] ∧
      ∀ entries : List RawEntry,
        (parse_feed now (RawDoc.doc entries) sub).length = entries.length := by
  intro now sub
  exact ⟨rfl, fun entries => parse_entries_length now sub 0 entries⟩

/-- **C8.** The resolved timestamp prefers `updated` and falls back to
`published`; a parseable timestamp with no UTC offset is reinterpreted as
UTC and recorded with zone `"UTC"`; an unparsable timestamp falls back to
the current UTC time without raising. -/
theorem timestamp_resolution :
    (∀ updated published : Option String,
      (truthyStr updated = true → pickCreated updated published = updated) ∧
      (truthyStr updated = false → truthyStr published = true →
        pickCreated updated published = published)) ∧
    (∀ (now : PyDateTime) (s : String) (dt : PyDateTime),
      isoparse s = some dt → dt.offsetMinutes = none →
      parse_timestamp_with_timezone now s
        = (isoformat { dt with offsetMinutes := some 0 }, "UTC")) ∧
    (∀ (now : PyDateTime) (s : String),
      isoparse s = none →
      parse_timestamp_with_timezone now s = (isoformat now, "UTC")) := by
  refine ⟨?_, ?_, ?_⟩
  · intro u p
    constructor
    · intro hu; simp [pickCreated, hu]
    · intro hu hp; simp [pickCreated, hu, hp]
  · intro now s dt hparse hoff
    simp [parse_timestamp_with_timezone, hparse, hoff, tznameOrUTC]
  · intro now s hparse
    simp [parse_timestamp_with_timezone, hparse]

/-- Witness for C8: a timestamp without offset resolves to zone `"UTC"`
and a `+00:00` suffix; an unparsable string falls back to `now`; a truthy
`updated` wins over `published`. -/
theorem timestamp_resolution_witness :
    parse_timestamp_with_timezone ⟨2025, 1, 1, 0, 0, 0, 0, some 0⟩ "2024-01-02T03:04:05"
      = ("2024-01-02T03:04:05+00:00", "UTC") ∧
    parse_timestamp_with_timezone ⟨2025, 1, 1, 0, 0, 0, 0, some 0⟩ "not a timestamp"
      = ("2025-01-01T00:00:00+00:00", "UTC") ∧
    pickCreated (some "2024-01-02T03:04:05Z") (some "2001-01-01")
      = some "2024-01-02T03:04:05Z" := by
  refine ⟨?_, ?_, ?_⟩
  · have h := timestamp_resolution.2.1 ⟨2025, 1, 1, 0, 0, 0, 0, some 0⟩
      "2024-01-02T03:04:05" ⟨2024, 1, 2, 3, 4, 5, 0, none⟩ (by decide) rfl
    exact h.trans (by decide)
  · have h := timestamp_resolution.2.2 ⟨2025, 1, 1, 0, 0, 0, 0, some 0⟩
      "not a timestamp" (by decide)
    exact h.trans (by decide)
  · exact (timestamp_resolution.1 (some "2024-01-02T03:04:05Z") (some "2001-01-01")).1
      (by decide)

/-- `unDigits` recovers the number `digitsCore` rendered (fuel `≥ n`
suffices). -/
theorem digitsCore_unDigits : ∀ fuel n : Nat, n ≤ fuel → unDigits (digitsCore fuel n) = n := by
  intro fuel
  induction fuel with
  | zero =>
    intro n hn
    have h0 : n = 0 := Nat.le_zero.mp hn
    subst h0
    rfl
  | succ f ih =>
    intro n hn
    cases n with
    | zero => rfl
    | succ m =>
      show (m + 1) % 10 + 10 * unDigits (digitsCore f ((m + 1) / 10)) = m + 1
      have hlt : (m + 1) / 10 < m + 1 := Nat.div_lt_self (Nat.succ_pos m) (by omega)
      rw [ih ((m + 1) / 10) (by omega)]
      omega

/-- Every digit emitted by `digitsCore` is below 10. -/
theorem digitsCore_lt_ten : ∀ fuel n d : Nat, d ∈ digitsCore fuel n → d < 10 := by
  intro fuel
  induction fuel with
  | zero => intro n d hd; simp [digitsCore] at hd
  | succ f ih =>
    intro n d hd
    cases n with
    | zero => simp [digitsCore] at hd
    | succ m =>
      rcases List.mem_cons.mp hd with h | h
      · subst h; exact Nat.mod_lt _ (by omega)
      · exact ih _ _ h

/-- Reading a digit character back gives the digit. -/
theorem digitVal_digitCharOf : ∀ d : Nat, d < 10 → digitVal (digitCharOf d) = d := by decide

/-- The decimal rendering can be read back, hence is injective. -/
theorem natToStr_leftInv : ∀ n : Nat, unDigits (((natToStr n).data.map digitVal).reverse) = n := by
  intro n
  by_cases hn : n = 0
  · subst hn; rfl
  · have h1 : natToStr n = String.mk (((digitsCore n n).reverse).map digitCharOf) := by
      rw [natToStr, if_neg hn]
    rw [h1]
    show unDigits (((((digitsCore n n).reverse).map digitCharOf).map digitVal).reverse) = n
    rw [List.map_map]
    have h2 : ((digitsCore n n).reverse).map (digitVal ∘ digitCharOf)
        = ((digitsCore n n).reverse).map id := by
      apply List.map_congr_left
      intro d hd
      have hten : d < 10 := digitsCore_lt_ten n n d (List.mem_reverse.mp hd)
      simpa using digitVal_digitCharOf d hten
    rw [h2, List.map_id, List.reverse_reverse]
    exact digitsCore_unDigits n n le_rfl

/-- Distinct counters render to distinct decimal strings. -/
theorem natToStr_inj : ∀ m n : Nat, natToStr m = natToStr n → m = n := by
  intro m n h
  have hm := natToStr_leftInv m
  rw [h, natToStr_leftInv n] at hm
  exact hm.symm

/-- `find?` skips a leading block on which the predicate fails. -/
theorem find?_all_false_append {α : Type} (p : α → Bool) :
    ∀ l m : List α, (∀ x ∈ l, p x = false) → (l ++ m).find? p = m.find? p := by
  intro l
  induction l with
  | nil => intro m _; rfl
  | cons a l ih =>
    intro m hl
    have ha : p a = false := hl a (List.mem_cons_self a l)
    show List.find? p (a :: (l ++ m)) = List.find? p m
    rw [List.find?_cons_of_neg _ (by simp [ha])]
    exact ih m (fun x hx => hl x (List.mem_cons_of_mem a hx))

/-- Searching the reversed segments finds the **last** qualifying one. -/
theorem find?_reverse_last {α : Type} (p : α → Bool) (l₁ : List α) (a : α) (l₂ : List α)
    (ha : p a = true) (h₂ : ∀ x ∈ l₂, p x = false) :
    (l₁ ++ a :: l₂).reverse.find? p = some a := by
  rw [List.reverse_append, List.reverse_cons, List.append_assoc]
  rw [find?_all_false_append p l₂.reverse _ (fun x hx => h₂ x (List.mem_reverse.mp hx))]
  show List.find? p (a :: l₁.reverse) = some a
  exact List.find?_cons_of_pos _ ha

/-- **C5.** The derived post id is the fixed namespace tag `reddit_`
followed by the last `/`-separated segment of the entry's native id/URL
that is nonempty and not a generic marker (`comments`, `r`, or the
source's own name); when no segment qualifies (or the raw id is
absent/empty) it is the positional placeholder `post_{n}`, and distinct
positions give distinct placeholder ids; and repeated parses of the same
entries derive identical ids (the ids do not depend on the wall-clock
`now` that varies between parses). -/
theorem derived_id_characterization :
    (∀ (rid sub : String) (n : Nat) (l₁ l₂ : List (List Char)) (seg : List Char),
      rid ≠ "" →
      splitOnL rid.data ['/'] = l₁ ++ seg :: l₂ →
      qualSeg sub seg = true →
      (∀ x ∈ l₂, qualSeg sub x = false) →
      derivePostId (some rid) sub n = "reddit_" ++ String.mk seg) ∧
    (∀ (rawId : Option String) (sub : String) (n : Nat),
      (∀ rid, rawId = some rid → rid ≠ "" →
        ∀ x ∈ splitOnL rid.data ['/'], qualSeg sub x = false) →
      derivePostId rawId sub n = "reddit_" ++ ("post_" ++ natToStr n)) ∧
    (∀ (sub : String) (i j : Nat), i ≠ j →
      derivePostId none sub i ≠ derivePostId none sub j) ∧
    (∀ (now now' : PyDateTime) (doc : RawDoc) (sub : String),
      (parse_feed now doc sub).map (fun p => p.id)
        = (parse_feed now' doc sub).map (fun p => p.id)) := by
  refine ⟨?_, ?_, ?_, ?_⟩
  · intro rid sub n l₁ l₂ seg hne hsplit hqa hq2
    have hfind : (splitOnL rid.data ['/']).reverse.find? (qualSeg sub) = some seg := by
      rw [hsplit]
      exact find?_reverse_last (qualSeg sub) l₁ seg l₂ hqa hq2
    simp [derivePostId, deriveRedditId, hne, hfind]
  · intro rawId sub n hall
    cases rawId with
    | none => rfl
    | some rid =>
      by_cases hrid : rid = ""
      · subst hrid
        rfl
      · have hfind : (splitOnL rid.data ['/']).reverse.find? (qualSeg sub) = none := by
          apply List.find?_eq_none.mpr
          intro x hx
          have hx' := hall rid rfl hrid x (List.mem_reverse.mp hx)
          simp [hx']
        simp [derivePostId, deriveRedditId, hrid, hfind]
  · intro sub i j hij hcontra
    have h : "reddit_" ++ ("post_" ++ natToStr i) = "reddit_" ++ ("post_" ++ natToStr j) :=
      hcontra
    have hd : "reddit_".data ++ ("post_".data ++ (natToStr i).data)
        = "reddit_".data ++ ("post_".data ++ (natToStr j).data) := congrArg String.data h
    have hd1 : "post_".data ++ (natToStr i).data = "post_".data ++ (natToStr j).data :=
      List.append_cancel_left hd
    have hd2 : (natToStr i).data = (natToStr j).data := List.append_cancel_left hd1
    exact hij (natToStr_inj i j (congrArg String.mk hd2))
  · intro now now' doc sub
    cases doc with
    | malformed => rfl
    | doc es =>
      show (parse_entries now sub 0 es).map (fun p => p.id)
        = (parse_entries now' sub 0 es).map (fun p => p.id)
      have key : ∀ (i : Nat) (es : List RawEntry),
          (parse_entries now sub i es).map (fun p => p.id)
            = (parse_entries now' sub i es).map (fun p => p.id) := by
        intro i es
        induction es generalizing i with
        | nil => rfl
        | cons e es ih =>
          show (parse_entry now sub i e).id :: (parse_entries now sub (i + 1) es).map (fun p => p.id)
            = (parse_entry now' sub i e).id :: (parse_entries now' sub (i + 1) es).map (fun p => p.id)
          rw [ih (i + 1)]
          rfl
      exact key 0 es

/-- Witness for C5: a full permalink derives `reddit_abc123`; a raw id
whose every segment is generic falls back to the positional placeholder;
distinct positions give distinct placeholders. -/
theorem derived_id_characterization_witness :
    derivePostId (some "https://www.reddit.com/r/stocks/comments/abc123") "stocks" 0
      = "reddit_abc123" ∧
    derivePostId (some "r/stocks/comments") "stocks" 7 = "reddit_post_7" ∧
    derivePostId none "stocks" 1 ≠ derivePostId none "stocks" 2 := by
  refine ⟨?_, ?_, ?_⟩
  · have h := derived_id_characterization.1 "https://www.reddit.com/r/stocks/comments/abc123"
      "stocks" 0
      ["https:".data, "".data, "www.reddit.com".data, "r".data, "stocks".data, "comments".data]
      [] "abc123".data (by decide) (by decide) (by decide) (by decide)
    exact h.trans (by decide)
  · have h := derived_id_characterization.2.1 (some "r/stocks/comments") "stocks" 7 ?_
    · exact h.trans (by decide)
    · intro rid hr hne
      injection hr with hr'
      subst hr'
      decide
  · exact derived_id_characterization.2.2.1 "stocks" 1 2 (by decide)

/-- The inner append loop never shrinks the accumulator. -/
theorem appendFiltered_length_le (fp : FilterPatterns) (m : Int) :
    ∀ ps collected : List Post,
      collected.length ≤ (appendFiltered fp m ps collected).length := by
  intro ps
  induction ps with
  | nil => intro c; exact le_rfl
  | cons p ps ih =>
    intro c
    show c.length ≤ (if should_filter_post fp p.title p.text then appendFiltered fp m ps c
      else if m ≤ (c.length : Int) then c else appendFiltered fp m ps (c ++ [p])).length
    by_cases h1 : should_filter_post fp p.title p.text
    · rw [if_pos h1]; exact ih c
    · rw [if_neg h1]
      by_cases h2 : m ≤ (c.length : Int)
      · rw [if_pos h2]
      · rw [if_neg h2]
        calc c.length ≤ (c ++ [p]).length := by simp
          _ ≤ _ := ih (c ++ [p])

/-- The inner append loop preserves nonemptiness of the accumulator. -/
theorem appendFiltered_ne_nil_of_ne (fp : FilterPatterns) (m : Int)
    (ps collected : List Post) (h : collected ≠ []) :
    appendFiltered fp m ps collected ≠ [] :=
  List.ne_nil_of_length_pos
    (lt_of_lt_of_le (List.length_pos.mpr h) (appendFiltered_length_le fp m ps collected))

/-- With a positive cap, a batch containing a filtered-in post leaves the
accumulator nonempty. -/
theorem appendFiltered_ne_nil_of_pass (fp : FilterPatterns) (m : Int) (hm : 0 < m) :
    ∀ ps collected : List Post,
      (∃ p ∈ ps, should_filter_post fp p.title p.text = false) →
      appendFiltered fp m ps collected ≠ [] := by
  intro ps
  induction ps with
  | nil =>
    intro c hex
    rcases hex with ⟨p, hp, _⟩
    simp at hp
  | cons p ps ih =>
    intro c hex
    show (if should_filter_post fp p.title p.text then appendFiltered fp m ps c
      else if m ≤ (c.length : Int) then c else appendFiltered fp m ps (c ++ [p])) ≠ []
    by_cases h1 : should_filter_post fp p.title p.text
    · rw [if_pos h1]
      rcases hex with ⟨q, hq, hqf⟩
      rcases List.mem_cons.mp hq with rfl | hq'
      · rw [h1] at hqf; exact absurd hqf (by simp)
      · exact ih c ⟨q, hq', hqf⟩
    · rw [if_neg h1]
      by_cases h2 : m ≤ (c.length : Int)
      · rw [if_pos h2]
        intro hc
        rw [hc] at h2
        simp at h2
        omega
      · rw [if_neg h2]
        exact appendFiltered_ne_nil_of_ne fp m ps (c ++ [p]) (by simp)

/-- Once the cap is reached the outer loop returns the accumulator. -/
theorem collectSubs_cap (fp : FilterPatterns)
    (fetch : String → String → Int → Option (List Post)) (q : String) (lim m : Int)
    (subs : List String) (collected : List Post) (h : m ≤ (collected.length : Int)) :
    collectSubs fp fetch q lim m subs collected = collected := by
  cases subs with
  | nil => rfl
  | cons s subs =>
    show (if m ≤ (collected.length : Int) then collected else _) = collected
    rw [if_pos h]

/-- With a positive cap, the outer loop returns a nonempty list whenever
the accumulator is already nonempty or some listed source yields a
filtered-in post. -/
theorem collectSubs_ne_nil (fp : FilterPatterns)
    (fetch : String → String → Int → Option (List Post)) (q : String) (lim m : Int)
    (hm : 0 < m) :
    ∀ (subs : List String) (collected : List Post),
      (collected ≠ [] ∨ ∃ s ∈ subs, ∃ ps, fetch s q lim = some ps ∧
        ∃ p ∈ ps, should_filter_post fp p.title p.text = false) →
      collectSubs fp fetch q lim m subs collected ≠ [] := by
  intro subs
  induction subs with
  | nil =>
    intro c h
    rcases h with h | ⟨s, hs, _⟩
    · exact h
    · simp at hs
  | cons s subs ih =>
    intro c h
    show (if m ≤ (c.length : Int) then c else match fetch s q lim with
      | none => collectSubs fp fetch q lim m subs c
      | some posts => collectSubs fp fetch q lim m subs (appendFiltered fp m posts c)) ≠ []
    by_cases hcap : m ≤ (c.length : Int)
    · rw [if_pos hcap]
      intro hc
      rw [hc] at hcap
      simp at hcap
      omega
    · rw [if_neg hcap]
      cases hf : fetch s q lim with
      | none =>
        apply ih c
        rcases h with h | ⟨t, ht, ps, hps, hpass⟩
        · exact Or.inl h
        · rcases List.mem_cons.mp ht with rfl | ht'
          · rw [hf] at hps; exact absurd hps (by simp)
          · exact Or.inr ⟨t, ht', ps, hps, hpass⟩
      | some posts =>
        apply ih
        rcases h with h | ⟨t, ht, ps, hps, hpass⟩
        · exact Or.inl (appendFiltered_ne_nil_of_ne fp m posts c h)
        · rcases List.mem_cons.mp ht with rfl | ht'
          · rw [hf] at hps
            injection hps with he
            subst he
            exact Or.inl (appendFiltered_ne_nil_of_pass fp m hm posts c hpass)
          · exact Or.inr ⟨t, ht', ps, hps, hpass⟩

/-- A source whose fetch fails is skipped: the outer loop computes exactly
what it computes without that source in the list. -/
theorem collectSubs_skip_failed (fp : FilterPatterns)
    (fetch : String → String → Int → Option (List Post)) (q : String) (lim m : Int)
    (s : String) (hf : fetch s q lim = none) :
    ∀ (subs₁ subs₂ : List String) (collected : List Post),
      collectSubs fp fetch q lim m (subs₁ ++ s :: subs₂) collected
        = collectSubs fp fetch q lim m (subs₁ ++ subs₂) collected := by
  intro subs₁
  induction subs₁ with
  | nil =>
    intro subs₂ c
    show (if m ≤ (c.length : Int) then c else match fetch s q lim with
      | none => collectSubs fp fetch q lim m subs₂ c
      | some posts => collectSubs fp fetch q lim m subs₂ (appendFiltered fp m posts c))
      = collectSubs fp fetch q lim m subs₂ c
    by_cases hcap : m ≤ (c.length : Int)
    · rw [if_pos hcap, collectSubs_cap fp fetch q lim m subs₂ c hcap]
    · rw [if_neg hcap, hf]
  | cons t subs₁ ih =>
    intro subs₂ c
    show (if m ≤ (c.length : Int) then c else match fetch t q lim with
      | none => collectSubs fp fetch q lim m (subs₁ ++ s :: subs₂) c
      | some posts =>
        collectSubs fp fetch q lim m (subs₁ ++ s :: subs₂) (appendFiltered fp m posts c))
      = (if m ≤ (c.length : Int) then c else match fetch t q lim with
      | none => collectSubs fp fetch q lim m (subs₁ ++ subs₂) c
      | some posts =>
        collectSubs fp fetch q lim m (subs₁ ++ subs₂) (appendFiltered fp m posts c))
    by_cases hcap : m ≤ (c.length : Int)
    · rw [if_pos hcap, if_pos hcap]
    · rw [if_neg hcap, if_neg hcap]
      cases hft : fetch t q lim with
      | none => exact ih subs₂ c
      | some posts => exact ih subs₂ (appendFiltered fp m posts c)

/-- **C9.** A failing fetch for one source only skips that source — the
outer loop computes the same result as with the source removed — and the
overall fetch returns a nonempty result whenever the cap is positive and
any listed source yields a post that passes the filter. -/
theorem source_failure_isolation :
    (∀ (fp : FilterPatterns) (fetch : String → String → Int → Option (List Post))
        (q : String) (lim m : Int) (s : String) (subs₁ subs₂ : List String)
        (collected : List Post),
      fetch s q lim = none →
      collectSubs fp fetch q lim m (subs₁ ++ s :: subs₂) collected
        = collectSubs fp fetch q lim m (subs₁ ++ subs₂) collected) ∧
    (∀ (cfg : ClientConfig) (fetch : String → String → Int → Option (List Post))
        (q : Option String) (R : Int),
      0 < R →
      (∃ s ∈ (if cfg.subreddits.isEmpty then ["stocks", "investing"] else cfg.subreddits),
        ∃ ps, fetch s (q.getD cfg.default_query) (per_sub_limit R cfg.subreddits.length)
            = some ps ∧
          ∃ p ∈ ps, should_filter_post cfg.filter_patterns p.title p.text = false) →
      client_fetch_posts cfg fetch q R ≠ []) := by
  constructor
  · intro fp fetch q lim m s subs₁ subs₂ c hf
    exact collectSubs_skip_failed fp fetch q lim m s hf subs₁ subs₂ c
  · intro cfg fetch q R hR hex
    have hR' : ¬ R ≤ 0 := by omega
    show (if R ≤ 0 then [] else
      (collectSubs cfg.filter_patterns fetch (q.getD cfg.default_query)
        (per_sub_limit R cfg.subreddits.length) R
        (if cfg.subreddits.isEmpty then ["stocks", "investing"] else cfg.subreddits)
        []).take R.toNat) ≠ []
    rw [if_neg hR']
    intro hcontra
    have hne := collectSubs_ne_nil cfg.filter_patterns fetch (q.getD cfg.default_query)
      (per_sub_limit R cfg.subreddits.length) R hR
      (if cfg.subreddits.isEmpty then ["stocks", "investing"] else cfg.subreddits) []
      (Or.inr hex)
    rcases List.take_eq_nil_iff.mp hcontra with h | h
    · omega
    · exact hne h

/-- Witness for C9: with two configured sources where `"stocks"` fails and
`"investing"` returns a filtered-in post, the fetch still returns posts,
and skipping the failed source leaves the loop's result unchanged. -/
theorem source_failure_isolation_witness :
    client_fetch_posts sampleConfig sampleFetch none 5 ≠ [] ∧
    collectSubs defaultFilterPatterns sampleFetch "dq" (per_sub_limit 5 2) 5
        ([] ++ "stocks" :: ["investing"]) []
      = collectSubs defaultFilterPatterns sampleFetch "dq" (per_sub_limit 5 2) 5
        ([] ++ ["investing"]) [] := by
  constructor
  · apply source_failure_isolation.2 sampleConfig sampleFetch none 5 (by decide)
    exact ⟨"investing", by decide, [samplePost], by decide, samplePost, by simp, by decide⟩
  · exact source_failure_isolation.1 defaultFilterPatterns sampleFetch "dq"
      (per_sub_limit 5 2) 5 "stocks" [] ["investing"] [] (by decide)

end FinSent
